import Mathlib

/-!
# Verification of `react-base-control` (`src/baseControl.js`)

A shallow embedding of the single source file `src/baseControl.js`: the
decorator's control-state object, the internal `start`/`finish` methods, the
event handlers registered with `component.on`, the decorator's invariant
checks, the `targetCallbacks`/`focusableCallbacks` partition of
`this.callbacks`, and the wrapper `Control` component.

Conventions of the embedding:
* The JS value stored in the `beacon` field is always one of `true`, `false`,
  `null`; it is modelled by the three-constructor type `BeaconVal`.
* The JS value stored in `selecting` is `null` (initial state), `undefined`
  (written by `start` when called with no event), `false` (written by
  `finish`), or a `{x, y}` point object; it is modelled by `SelectingVal`.
* `setControlState` is the wrapper component's bound `this.setState`, whose
  effect on the state object is React's shallow merge of a partial state; it
  is modelled by `setControlState : ControlState → ControlUpdate →
  ControlState` where a `ControlUpdate` holds `some v` exactly for the keys
  present in the partial-state object the source passes.
* Whether the decorated component defines `controlPrimaryAction` is a fixed
  boolean `hasPrimary`; handlers that can call `controlPrimaryAction` return,
  besides the new state, a boolean saying whether the callback was invoked.
* The module-level mutable `tabPressed` flag (set by the `window` key
  listeners, lines 96-106) is passed to handlers as a boolean parameter.
-/

namespace BaseControl

/-- The JS value kept in the `beacon` field: `true`, `false` or `null`
(`start` writes `null`, line 196, "Use null instead of false for the beacon,
so we can tell if it is disabled by blur/pointer/escape key before keyup"). -/
inductive BeaconVal where
  | btrue
  | bfalse
  | bnull
deriving DecidableEq, Repr

/-- The JS value kept in the `selecting` field: a `{x, y}` page-coordinate
object, `false`, `null` (initial state) or `undefined` (written when `start`
runs with no event argument, since `point = e && {...}` is `undefined`). -/
inductive SelectingVal where
  | point (x y : Int)
  | sfalse
  | snull
  | sundefined
deriving DecidableEq, Repr

/-- JS truthiness of a `selecting` value: only a point object is truthy. -/
def SelectingVal.truthy : SelectingVal → Bool
  | .point _ _ => true
  | _ => false

/-- The control-state object owned by the wrapper `Control` component and
exposed through context (`controlStateShape`, lines 68-76; `state`,
lines 306-313). It has exactly the six fields `active`, `beacon`, `hover`,
`acting`, `selecting`, `disabled`. -/
structure ControlState where
  active : Bool
  beacon : BeaconVal
  hover : Bool
  acting : Bool
  selecting : SelectingVal
  disabled : Bool
deriving DecidableEq, Repr

/-- A partial state as passed to `setControlState`: `some v` for each key
present in the object literal, `none` for each absent key. -/
structure ControlUpdate where
  active : Option Bool := none
  beacon : Option BeaconVal := none
  hover : Option Bool := none
  acting : Option Bool := none
  selecting : Option SelectingVal := none
  disabled : Option Bool := none
deriving DecidableEq, Repr

/-- React `setState` shallow merge: keys present in the partial state
overwrite the previous state, absent keys are kept.  This is the semantics of
the `setControlState` function the wrapper puts in context (line 318,
`this.setState.bind(this)`), hence of the component's `[setControl]` method
(line 178), whose other work (`controlWillUpdate`, `onControl`) does not
touch the state object. -/
def setControlState (s : ControlState) (u : ControlUpdate) : ControlState :=
  { active := u.active.getD s.active
    beacon := u.beacon.getD s.beacon
    hover := u.hover.getD s.hover
    acting := u.acting.getD s.acting
    selecting := u.selecting.getD s.selecting
    disabled := u.disabled.getD s.disabled }

/-- A DOM event as seen by the handlers: `keyCode` for key events, `button`
(possibly `undefined`) for pointer events, and page coordinates, where
`pageX`/`pageY` may be `undefined` on the React synthetic event, in which
case `start` falls back to `nativeEvent.pageX`/`pageY` (lines 188-189). -/
structure JEvent where
  keyCode : Nat := 0
  button : Option Nat := none
  pageX : Option Int := none
  pageY : Option Int := none
  nativePageX : Int := 0
  nativePageY : Int := 0
deriving DecidableEq, Repr

/-- `KeyCodes` table (lines 79-84). -/
def KeyCodes.ESC : Nat := 27
def KeyCodes.ENTER : Nat := 13
def KeyCodes.SPACE : Nat := 32
def KeyCodes.TAB : Nat := 9

/-- The `{x, y}` point computed by `start` from its event argument
(lines 187-190): `undefined` when there is no event, else the event's page
coordinates with the `nativeEvent` fallback. -/
def eventPoint (e : Option JEvent) : Option (Int × Int) :=
  e.map fun ev => (ev.pageX.getD ev.nativePageX, ev.pageY.getD ev.nativePageY)

/-- `component.prototype[start]` (lines 185-200).  When the control is
disabled it does nothing; otherwise it merges
`acting := !!controlPrimaryAction`,
`beacon := !point && (beacon || beacon === null) ? null : false`,
`selecting := point` into the state. -/
def start (hasPrimary : Bool) (e : Option JEvent) (s : ControlState) :
    ControlState :=
  if s.disabled then s
  else
    let point := eventPoint e
    setControlState s
      { acting := some hasPrimary
        beacon := some
          (if point.isNone ∧ (s.beacon = .btrue ∨ s.beacon = .bnull) then
            .bnull
          else .bfalse)
        selecting := some
          (match point with
            | some p => .point p.1 p.2
            | none => .sundefined) }

/-- `component.prototype[finish]` (lines 202-212).  Calls
`controlPrimaryAction` when `this.control.acting == true` and the callback
exists (the returned boolean records this), then merges `acting := false`,
`beacon := beacon || beacon === null`, `selecting := false`. -/
def finish (hasPrimary : Bool) (s : ControlState) : ControlState × Bool :=
  let fired := s.acting && hasPrimary
  (setControlState s
    { acting := some false
      beacon := some
        (if s.beacon = .btrue ∨ s.beacon = .bnull then .btrue else .bfalse)
      selecting := some .sfalse },
   fired)

/-- The event names for which `component.on` registers a handler
(lines 219-277). -/
inductive EventName where
  | keyDown
  | keyUp
  | mouseEnter
  | mouseLeave
  | mouseDown
  | touchStart
  | mouseUp
  | mouseOut
  | touchEnd
  | blur
  | focus
deriving DecidableEq, Repr

/-- One registered event handler, acting on the control state.  The returned
boolean records whether `controlPrimaryAction` was invoked during the
handler (only `finish` can invoke it).  `tab` is the module-level
`tabPressed` flag read by the `focus` handler (line 273). -/
def dispatch (hasPrimary tab : Bool) (ev : EventName) (e : JEvent)
    (s : ControlState) : ControlState × Bool :=
  match ev with
  | .keyDown =>
      if e.keyCode = KeyCodes.ENTER ∨ e.keyCode = KeyCodes.SPACE then
        (start hasPrimary none s, false)
      else if e.keyCode = KeyCodes.ESC then
        (setControlState s
          { beacon := some .bfalse
            selecting := some .sfalse
            acting := some false }, false)
      else (s, false)
  | .keyUp =>
      if e.keyCode = KeyCodes.ENTER ∨ e.keyCode = KeyCodes.SPACE then
        finish hasPrimary s
      else (s, false)
  | .mouseEnter => (setControlState s { hover := some true }, false)
  | .mouseLeave =>
      finish hasPrimary (setControlState s { hover := some false })
  | .mouseDown | .touchStart =>
      if e.button = some 0 ∨ e.button = none then
        (start hasPrimary (some e) s, false)
      else (s, false)
  | .mouseUp | .mouseOut | .touchEnd => finish hasPrimary s
  | .blur =>
      (setControlState s { beacon := some .bfalse, active := some false },
       false)
  | .focus =>
      let s1 :=
        if tab then setControlState s { beacon := some .btrue } else s
      (setControlState s1 { active := some true }, false)

/-- The DOM event names with a registered handler, keyed to the handler in
`dispatch`, in registration order (lines 219-277). -/
def handlerTable : List (String × EventName) :=
  [("keyDown", .keyDown), ("keyUp", .keyUp), ("mouseEnter", .mouseEnter),
   ("mouseLeave", .mouseLeave), ("mouseDown", .mouseDown),
   ("touchStart", .touchStart), ("mouseUp", .mouseUp),
   ("mouseOut", .mouseOut), ("touchEnd", .touchEnd), ("blur", .blur),
   ("focus", .focus)]

/-- Handler registered for a DOM event name, if any. -/
def eventOfName (name : String) : Option EventName :=
  handlerTable.lookup name

/-- Dispatch a DOM event by name: events without a registered handler leave
the control state untouched and invoke no callback. -/
def dispatchNamed (hasPrimary tab : Bool) (name : String) (e : JEvent)
    (s : ControlState) : ControlState × Bool :=
  match eventOfName name with
  | some ev => dispatch hasPrimary tab ev e s
  | none => (s, false)

/-- Initial state of a freshly mounted `Control` wrapper (lines 306-313):
`disabled` is `!!this.props.disabled`, where the `disabled` prop may be
absent (`none`). -/
def initControlState (disabledProp : Option Bool) : ControlState :=
  { active := false
    beacon := .bfalse
    hover := false
    acting := false
    selecting := .snull
    disabled := disabledProp.getD false }

/-- One event delivery in a run: the `tabPressed` flag at that moment, the
event name, and the event object. -/
structure Step where
  tab : Bool
  ev : EventName
  e : JEvent
deriving DecidableEq, Repr

/-- State after delivering a sequence of events to the handlers. -/
def run (hasPrimary : Bool) (steps : List Step) (s : ControlState) :
    ControlState :=
  steps.foldl (fun s st => (dispatch hasPrimary st.tab st.ev st.e s).1) s

/-!
## The decorator's sanity checks (lines 117-129)

`invariant(cond, msg)` throws when `cond` is falsy.  The checks run, in
source order, before `base(...)` is applied (line 150) and before any
`component.on` registration (lines 219-277), so a component that trips one
of them is returned unmodified apart from possibly-empty `propTypes` /
`contextTypes` objects.  The success value of the model is the list of event
names the decorator then registers handlers for.
-/

/-- The facets of the decorated component the sanity checks inspect: whether
`component.prototype.control`, `component.propTypes.onControl`,
`component.contextTypes.controlState` and
`component.contextTypes.setControlState` are already defined. -/
structure ComponentConfig where
  hasControlProto : Bool
  hasOnControlPropType : Bool
  hasControlStateContextType : Bool
  hasSetControlStateContextType : Bool
deriving DecidableEq, Repr

/-- The `decorator` function returned by `baseControl` (lines 111-150, check
phase): each `invariant` throws its message when the corresponding facet is
already defined; only when all pass does the decorator reach `component.on`,
registering the handlers of `handlerTable`. -/
def applyDecorator (c : ComponentConfig) : Except String (List String) :=
  if c.hasControlProto then
    .error
      "@baseControl must be applied to a component with no control property"
  else if c.hasOnControlPropType then
    .error
      "@baseControl must be applied to a component with no onControl propType"
  else if c.hasControlStateContextType then
    .error
      "@baseControl must be applied to a component with no controlState contextType"
  else if c.hasSetControlStateContextType then
    .error
      "@baseControl must be applied to a component with no setControlState contextType"
  else
    .ok (handlerTable.map Prod.fst)

/-!
## `targetCallbacks` / `focusableCallbacks` (lines 156-170)

`this.callbacks` (populated by `react-base` from the `component.on`
registrations) is a JS object mapping event names to callback functions; it
is modelled as an association list `String × Option Nat`, where a pair
`(k, some n)` is a key holding callback `n` and `(k, none)` is a key
present with value `undefined`.  Reading an absent key also yields
`undefined`.
-/

/-- A JS object of callbacks: association list from event name to callback
identity; `none` is the value `undefined`. -/
abbrev Callbacks := List (String × Option Nat)

/-- Property read `o[k]`: value of the first entry for `k`, `undefined`
(`none`) when the key is absent. -/
def objGet (o : Callbacks) (k : String) : Option Nat :=
  (o.lookup k).getD none

/-- `k in o`: the object has an own property `k` (even one holding
`undefined`). -/
def hasKey (o : Callbacks) (k : String) : Bool :=
  (o.lookup k).isSome

/-- Property write `o[k] = v`: overwrite the entry in place when the key
exists, append it otherwise. -/
def objSet (o : Callbacks) (k : String) (v : Option Nat) : Callbacks :=
  match o with
  | [] => [(k, v)]
  | p :: rest => if p.1 = k then (k, v) :: rest else p :: objSet rest k v

/-- `delete o[k]`: drop the entry for `k`, keep the rest in order. -/
def objDelete : Callbacks → String → Callbacks
  | [], _ => []
  | p :: rest, k => if p.1 = k then objDelete rest k else p :: objDelete rest k

/-- `Object.assign(a, b)`: write every entry of `b` into `a` in order. -/
def objAssign (a b : Callbacks) : Callbacks :=
  b.foldl (fun acc p => objSet acc p.1 p.2) a

/-- `InputCallbacks` (lines 86-91): the callbacks placed on the focusable
target element. -/
def InputCallbacks : List String := ["blur", "focus", "keyDown", "keyUp"]

/-- `component.prototype.targetCallbacks` (lines 156-162): a copy of
`this.callbacks` with every `InputCallbacks` key deleted. -/
def targetCallbacks (callbacks : Callbacks) : Callbacks :=
  InputCallbacks.foldl objDelete callbacks

/-- `component.prototype.focusableCallbacks` (lines 164-170): a fresh object
whose `InputCallbacks` keys are read off `this.callbacks`. -/
def focusableCallbacks (callbacks : Callbacks) : Callbacks :=
  InputCallbacks.foldl (fun acc ev => objSet acc ev (objGet callbacks ev)) []

/-!
## The wrapper `Control` component (lines 296-325)
-/

/-- The props a `Control` wrapper instance holds: the declared `disabled`
prop (possibly absent), `children` (an opaque identity, possibly absent) and
the remaining props, opaque name/value pairs. -/
structure WrapperProps where
  disabled : Option Bool := none
  children : Option Nat := none
  rest : List (String × Int) := []
deriving DecidableEq, Repr

/-- A value placed in the child context: the wrapper's own state object, or
its bound `setState`. -/
inductive ContextValue where
  | stateValue (s : ControlState)
  | setterValue
deriving DecidableEq, Repr

/-- `getChildContext` (lines 315-320): an object with exactly the two keys
`controlState` (the wrapper's own state) and `setControlState` (its bound
`setState`, whose action on the state is `setControlState` above). -/
def getChildContext (s : ControlState) : List (String × ContextValue) :=
  [("controlState", .stateValue s), ("setControlState", .setterValue)]

/-- The element `render` returns: `React.createElement(component,
this.props, this.props.children)` — element type, props object, and the
explicit children argument. -/
structure ReactElement where
  elementType : String
  props : WrapperProps
  childrenArg : Option Nat
deriving DecidableEq, Repr

/-- `Control.render` (lines 322-324), with `decorated` the identity of the
decorated component class. -/
def Control.render (decorated : String) (props : WrapperProps) :
    ReactElement :=
  { elementType := decorated, props := props, childrenArg := props.children }

/-- A concrete `this.callbacks` object of a decorated component: the four
input callbacks plus a pointer callback. -/
def sampleCallbacks : Callbacks :=
  [("blur", some 1), ("focus", some 2), ("keyDown", some 3),
   ("keyUp", some 4), ("mouseDown", some 5)]

/-!
## Theorems
-/

/-- C1: every invocation of the internal `finish` handler — which is exactly
what `keyUp` on space/enter, `mouseUp`, `mouseOut`, `touchEnd` and
`mouseLeave` (after its `hover := false` update) run — invokes
`controlPrimaryAction` exactly when the current state has `acting === true`
and the component defines `controlPrimaryAction`; after that check it sets
`acting` to `false`, `selecting` to `false`, and `beacon` to `true` if and
only if `beacon` was `true` or `null` before the call (else to `false`). -/
theorem finish_spec (hasPrimary : Bool) (s : ControlState) :
    (finish hasPrimary s).2 = (s.acting && hasPrimary)
    ∧ (finish hasPrimary s).1.acting = false
    ∧ (finish hasPrimary s).1.selecting = .sfalse
    ∧ (finish hasPrimary s).1.beacon =
        (if s.beacon = .btrue ∨ s.beacon = .bnull then .btrue else .bfalse)
    ∧ (∀ tab e, (e.keyCode = KeyCodes.SPACE ∨ e.keyCode = KeyCodes.ENTER) →
        dispatch hasPrimary tab .keyUp e s = finish hasPrimary s)
    ∧ (∀ tab e, dispatch hasPrimary tab .mouseUp e s = finish hasPrimary s
        ∧ dispatch hasPrimary tab .mouseOut e s = finish hasPrimary s
        ∧ dispatch hasPrimary tab .touchEnd e s = finish hasPrimary s)
    ∧ (∀ tab e, dispatch hasPrimary tab .mouseLeave e s
        = finish hasPrimary { s with hover := false }) := by
  refine ⟨rfl, rfl, rfl, rfl, ?_, fun tab e => ⟨rfl, rfl, rfl⟩,
    fun tab e => rfl⟩
  intro tab e h
  simp only [dispatch]
  rw [if_pos h.symm]

/-- Witness for `finish_spec` at a concrete acting state and a space keyUp. -/
theorem finish_spec_witness :
    dispatch true false .keyUp { keyCode := 32 }
        { active := true, beacon := .bnull, hover := false, acting := true,
          selecting := .point 3 4, disabled := false }
      = finish true
          { active := true, beacon := .bnull, hover := false, acting := true,
            selecting := .point 3 4, disabled := false }
    ∧ (finish true
        { active := true, beacon := .bnull, hover := false, acting := true,
          selecting := .point 3 4, disabled := false }).2 = true
    ∧ (finish true
        { active := true, beacon := .bnull, hover := false, acting := true,
          selecting := .point 3 4, disabled := false }).1.beacon = .btrue := by
  have h := finish_spec true
    { active := true, beacon := .bnull, hover := false, acting := true,
      selecting := .point 3 4, disabled := false }
  exact ⟨h.2.2.2.2.1 false { keyCode := 32 } (Or.inl rfl),
    h.1.trans (by decide), h.2.2.2.1.trans (by decide)⟩

/-- C2: every invocation of the internal `start` handler on a non-disabled
control sets `acting` to `true` exactly when the component defines
`controlPrimaryAction`; with a pointer event (which is how `mouseDown` with
`button` 0/undefined and `touchStart` call it) it sets `selecting` to the
event's page coordinates and `beacon` to `false`; with no event (which is
how space/enter `keyDown` calls it) it sets `beacon` to `null` when it was
`true` or `null` and to `false` otherwise (and `selecting` to `undefined`,
the value of `e && {...}`). -/
theorem start_spec (hasPrimary : Bool) (e : Option JEvent)
    (s : ControlState) (h : s.disabled = false) :
    (start hasPrimary e s).acting = hasPrimary
    ∧ (∀ ev, e = some ev →
        (start hasPrimary e s).selecting
          = .point (ev.pageX.getD ev.nativePageX) (ev.pageY.getD ev.nativePageY)
        ∧ (start hasPrimary e s).beacon = .bfalse)
    ∧ (e = none →
        (start hasPrimary e s).beacon
          = (if s.beacon = .btrue ∨ s.beacon = .bnull then .bnull else .bfalse)
        ∧ (start hasPrimary e s).selecting = .sundefined)
    ∧ (∀ tab ev, (ev.button = some 0 ∨ ev.button = none) →
        (dispatch hasPrimary tab .mouseDown ev s).1
            = start hasPrimary (some ev) s
        ∧ (dispatch hasPrimary tab .touchStart ev s).1
            = start hasPrimary (some ev) s)
    ∧ (∀ tab ev, (ev.keyCode = KeyCodes.SPACE ∨ ev.keyCode = KeyCodes.ENTER) →
        (dispatch hasPrimary tab .keyDown ev s).1 = start hasPrimary none s) := by
  have hd : ¬ (s.disabled = true) := by simp [h]
  refine ⟨?_, ?_, ?_, ?_, ?_⟩
  · simp [start, hd, setControlState]
  · rintro ev rfl
    simp [start, hd, setControlState, eventPoint]
  · rintro rfl
    simp [start, hd, setControlState, eventPoint]
  · intro tab ev hb
    constructor <;> · simp only [dispatch]; rw [if_pos hb]
  · intro tab ev hk
    simp only [dispatch]
    rw [if_pos hk.symm]

/-- Witness for `start_spec`: a fresh non-disabled control, started by a
mouseDown whose synthetic event lacks `pageY` (exercising the
`nativeEvent` fallback), and by a space keyDown. -/
theorem start_spec_witness :
    (start true
      (some { keyCode := 0, button := some 0, pageX := some 5, pageY := none,
              nativePageX := 1, nativePageY := 7 })
      (initControlState none)).selecting = .point 5 7
    ∧ (start true
        (some { keyCode := 0, button := some 0, pageX := some 5, pageY := none,
                nativePageX := 1, nativePageY := 7 })
        (initControlState none)).acting = true
    ∧ (dispatch true false .keyDown { keyCode := 32 }
        (initControlState none)).1 = start true none (initControlState none) := by
  have h1 := start_spec true
    (some { keyCode := 0, button := some 0, pageX := some 5, pageY := none,
            nativePageX := 1, nativePageY := 7 })
    (initControlState none) rfl
  have h2 := start_spec true none (initControlState none) rfl
  exact ⟨(h1.2.1 _ rfl).1, h1.1, h2.2.2.2.2 false { keyCode := 32 } (Or.inl rfl)⟩

/-- C4: the `focus` handler sets `active` to `true`, and performs the
`beacon := true` update exactly when the module-level `tabPressed` flag is
set (leaving `beacon` untouched otherwise); the `blur` handler sets both
`active` and `beacon` to `false`. -/
theorem focus_blur_spec (hasPrimary tab : Bool) (e : JEvent)
    (s : ControlState) :
    (dispatch hasPrimary tab .focus e s).1.active = true
    ∧ (dispatch hasPrimary tab .focus e s).1.beacon
        = (if tab then .btrue else s.beacon)
    ∧ (dispatch hasPrimary tab .blur e s).1.active = false
    ∧ (dispatch hasPrimary tab .blur e s).1.beacon = .bfalse := by
  cases tab <;> exact ⟨rfl, rfl, rfl, rfl⟩

/-- C5: the control state consists of exactly the six fields `active`,
`beacon`, `hover`, `acting`, `selecting`, `disabled` (two states agreeing on
those six fields are equal), and in the initial state of a freshly mounted
wrapper `active`, `beacon`, `hover`, `acting` are `false`, `selecting` is
`null`, and `disabled` is the boolean coercion of the `disabled` prop. -/
theorem control_state_shape_spec (disabledProp : Option Bool) :
    (initControlState disabledProp).active = false
    ∧ (initControlState disabledProp).beacon = .bfalse
    ∧ (initControlState disabledProp).hover = false
    ∧ (initControlState disabledProp).acting = false
    ∧ (initControlState disabledProp).selecting = .snull
    ∧ (initControlState disabledProp).disabled = disabledProp.getD false
    ∧ ((initControlState disabledProp).disabled = true
        ↔ disabledProp = some true)
    ∧ (∀ s t : ControlState, s.active = t.active → s.beacon = t.beacon →
        s.hover = t.hover → s.acting = t.acting →
        s.selecting = t.selecting → s.disabled = t.disabled → s = t) := by
  refine ⟨rfl, rfl, rfl, rfl, rfl, rfl, ?_, ?_⟩
  · cases disabledProp with
    | none => simp [initControlState]
    | some b => cases b <;> simp [initControlState]
  · intro s t h1 h2 h3 h4 h5 h6
    cases s; cases t
    simp_all

/-- Witness for `control_state_shape_spec`: instantiating the extensionality
conjunct at the initial state of a wrapper with no `disabled` prop. -/
theorem control_state_shape_spec_witness :
    (initControlState (some true)).disabled = true
    ∧ initControlState none = initControlState (some false) := by
  have h1 := control_state_shape_spec (some true)
  have h2 := control_state_shape_spec none
  exact ⟨h1.2.2.2.2.2.2.1.2 rfl,
    h2.2.2.2.2.2.2.2 (initControlState none) (initControlState (some false))
      rfl rfl rfl rfl rfl rfl⟩

/-- C9: the `mouseEnter` handler sets `hover` to `true` and changes no other
field (and invokes no callback); the `mouseLeave` handler sets `hover` to
`false` and then runs the `finish` handler on the updated state. -/
theorem hover_spec (hasPrimary tab : Bool) (e : JEvent) (s : ControlState) :
    (dispatch hasPrimary tab .mouseEnter e s).1 = { s with hover := true }
    ∧ (dispatch hasPrimary tab .mouseEnter e s).2 = false
    ∧ dispatch hasPrimary tab .mouseLeave e s
        = finish hasPrimary { s with hover := false }
    ∧ (dispatch hasPrimary tab .mouseLeave e s).1.hover = false :=
  ⟨rfl, rfl, rfl, rfl⟩

/-- Helper: `start` is a no-op on a disabled control (lines 186, 199). -/
theorem start_of_disabled (hasPrimary : Bool) (e : Option JEvent)
    (s : ControlState) (hd : s.disabled = true) :
    start hasPrimary e s = s := by
  simp [start, hd]

/-- Helper: a single event delivery on a disabled, non-acting,
non-selecting control leaves it disabled, non-acting and non-selecting. -/
theorem dispatch_preserves_inert (hasPrimary tab : Bool) (ev : EventName)
    (e : JEvent) (s : ControlState) (hd : s.disabled = true)
    (ha : s.acting = false) (hs : s.selecting.truthy = false) :
    (dispatch hasPrimary tab ev e s).1.disabled = true
    ∧ (dispatch hasPrimary tab ev e s).1.acting = false
    ∧ (dispatch hasPrimary tab ev e s).1.selecting.truthy = false := by
  have hd' : ∀ u, (setControlState s u).disabled = u.disabled.getD true := by
    intro u; simp [setControlState, hd]
  cases ev <;>
    simp only [dispatch] <;>
    (try split_ifs) <;>
    simp_all [start_of_disabled, finish, setControlState,
      SelectingVal.truthy]

/-- Helper: running any event sequence from a disabled, non-acting,
non-selecting state keeps the control disabled, non-acting and
non-selecting. -/
theorem run_preserves_inert (hasPrimary : Bool) (steps : List Step) :
    ∀ s : ControlState, s.disabled = true → s.acting = false →
      s.selecting.truthy = false →
      (run hasPrimary steps s).disabled = true
      ∧ (run hasPrimary steps s).acting = false
      ∧ (run hasPrimary steps s).selecting.truthy = false := by
  induction steps with
  | nil => exact fun s hd ha hs => ⟨hd, ha, hs⟩
  | cons st rest ih =>
    intro s hd ha hs
    have h := dispatch_preserves_inert hasPrimary st.tab st.ev st.e s hd ha hs
    exact ih _ h.1 h.2.1 h.2.2

/-- C3: starting from the initial wrapper state of a disabled control, no
sequence of event deliveries ever makes `selecting` truthy or `acting`
true (every prefix of a sequence being itself a sequence, this covers every
intermediate state); moreover the `start` handler performs no state update
at all whenever `control.disabled` is true. -/
theorem disabled_inert_spec (hasPrimary : Bool) (disabledProp : Option Bool)
    (steps : List Step)
    (h : (initControlState disabledProp).disabled = true) :
    (run hasPrimary steps (initControlState disabledProp)).selecting.truthy
        = false
    ∧ (run hasPrimary steps (initControlState disabledProp)).acting = false
    ∧ (run hasPrimary steps (initControlState disabledProp)).disabled = true
    ∧ (∀ e s, s.disabled = true → start hasPrimary e s = s) := by
  have hrun := run_preserves_inert hasPrimary steps (initControlState disabledProp)
    h rfl rfl
  exact ⟨hrun.2.2, hrun.2.1, hrun.1,
    fun e s hd => start_of_disabled hasPrimary e s hd⟩

/-- Witness for `disabled_inert_spec`: a disabled control receiving a
mouseDown, a space keyDown and a mouseUp never starts selecting or
acting. -/
theorem disabled_inert_spec_witness :
    (run true
        [{ tab := false, ev := .mouseDown,
           e := { keyCode := 0, button := some 0, pageX := some 5,
                  pageY := some 6 } },
         { tab := false, ev := .keyDown, e := { keyCode := 32 } },
         { tab := false, ev := .mouseUp, e := {} }]
        (initControlState (some true))).selecting.truthy = false
    ∧ (run true
        [{ tab := false, ev := .mouseDown,
           e := { keyCode := 0, button := some 0, pageX := some 5,
                  pageY := some 6 } },
         { tab := false, ev := .keyDown, e := { keyCode := 32 } },
         { tab := false, ev := .mouseUp, e := {} }]
        (initControlState (some true))).acting = false
    ∧ start true none
        { active := false, beacon := .bfalse, hover := false, acting := false,
          selecting := .snull, disabled := true }
      = { active := false, beacon := .bfalse, hover := false, acting := false,
          selecting := .snull, disabled := true } := by
  have h := disabled_inert_spec true (some true)
    [{ tab := false, ev := .mouseDown,
       e := { keyCode := 0, button := some 0, pageX := some 5,
              pageY := some 6 } },
     { tab := false, ev := .keyDown, e := { keyCode := 32 } },
     { tab := false, ev := .mouseUp, e := {} }] rfl
  exact ⟨h.1, h.2.1, h.2.2.2 none _ rfl⟩

/-- Helper: looking up a key that is not among an association list's keys
yields `none`. -/
theorem lookup_eq_none_of_not_mem_keys {β : Type} (l : List (String × β))
    (k : String) (h : k ∉ l.map Prod.fst) : l.lookup k = none := by
  induction l with
  | nil => rfl
  | cons p rest ih =>
    simp only [List.map_cons, List.mem_cons] at h
    push_neg at h
    have hb : (k == p.1) = false := beq_eq_false_iff_ne.2 h.1
    simp [List.lookup, hb, ih h.2]

/-- C6 counterexample: the source also registers a handler for `mouseOut`
(line 264), an event absent from the claimed list, and that handler (it runs
`finish`) does update the control state: on the initial state it rewrites
`selecting` from `null` to `false`. -/
theorem registered_events_counterexample :
    "mouseOut" ∉ ["keyDown", "keyUp", "mouseEnter", "mouseLeave",
        "mouseDown", "mouseUp", "blur", "focus", "touchStart", "touchEnd"]
    ∧ (eventOfName "mouseOut").isSome = true
    ∧ dispatchNamed false false "mouseOut" {} (initControlState none)
        ≠ (initControlState none, false) := by
  exact ⟨by decide, by decide, by decide⟩

/-- C6 (amended): the control state is mutated exclusively by the handlers
registered for `keyDown`, `keyUp`, `mouseEnter`, `mouseLeave`, `mouseDown`,
`mouseUp`, `mouseOut`, `blur`, `focus`, `touchStart` and `touchEnd`: a DOM
event with any other name has no registered handler, so delivering it
leaves the control state unchanged and invokes no callback. -/
theorem registered_events_spec (name : String) (hasPrimary tab : Bool)
    (e : JEvent) (s : ControlState)
    (h : name ∉ ["keyDown", "keyUp", "mouseEnter", "mouseLeave", "mouseDown",
        "mouseUp", "mouseOut", "blur", "focus", "touchStart", "touchEnd"]) :
    dispatchNamed hasPrimary tab name e s = (s, false) := by
  have hk : name ∉ handlerTable.map Prod.fst := by
    intro hmem
    apply h
    simp [handlerTable] at hmem
    simp only [List.mem_cons, List.mem_singleton]
    tauto
  simp [dispatchNamed, eventOfName,
    lookup_eq_none_of_not_mem_keys _ _ hk]

/-- Witness for `registered_events_spec`: a `click` event has no registered
handler and leaves the initial state untouched. -/
theorem registered_events_spec_witness :
    dispatchNamed true true "click" {} (initControlState none)
      = (initControlState none, false) :=
  registered_events_spec "click" true true {} (initControlState none)
    (by decide)

/-- C7: the wrapper's child context has exactly the two entries
`controlState` (the wrapper's own state object) and `setControlState` (its
bound `setState`), and its render output is a single element of the
decorated component receiving the wrapper's props object unchanged,
`children` included. -/
theorem wrapper_spec (s : ControlState) (decorated : String)
    (props : WrapperProps) :
    (getChildContext s).map Prod.fst = ["controlState", "setControlState"]
    ∧ (getChildContext s).lookup "controlState" = some (.stateValue s)
    ∧ (getChildContext s).lookup "setControlState" = some .setterValue
    ∧ (Control.render decorated props).elementType = decorated
    ∧ (Control.render decorated props).props = props
    ∧ (Control.render decorated props).childrenArg = props.children :=
  ⟨rfl, rfl, rfl, rfl, rfl, rfl⟩

/-- C8: applying the decorator to a component that already defines a
prototype `control` property, an `onControl` propType, or a `controlState`
or `setControlState` contextType throws an invariant error, so it never
reaches the `component.on` registrations (the success value listing the
registered events is never produced). -/
theorem decorator_invariant_spec (c : ComponentConfig)
    (h : c.hasControlProto = true ∨ c.hasOnControlPropType = true
      ∨ c.hasControlStateContextType = true
      ∨ c.hasSetControlStateContextType = true) :
    ∃ msg, applyDecorator c = .error msg := by
  rcases c with ⟨a, b, cc, d⟩
  cases a <;> cases b <;> cases cc <;> cases d <;>
    first
      | exact ⟨_, rfl⟩
      | simp at h

/-- Witness for `decorator_invariant_spec`: a component that already has a
`controlState` contextType is rejected. -/
theorem decorator_invariant_spec_witness :
    ∃ msg,
      applyDecorator
        { hasControlProto := false, hasOnControlPropType := false,
          hasControlStateContextType := true,
          hasSetControlStateContextType := false } = .error msg :=
  decorator_invariant_spec
    { hasControlProto := false, hasOnControlPropType := false,
      hasControlStateContextType := true,
      hasSetControlStateContextType := false }
    (Or.inr (Or.inr (Or.inl rfl)))

/-- Helper: reading any key off `objSet o k v` gives `v` at `k` and the old
entry elsewhere. -/
theorem objSet_lookup (o : Callbacks) (k : String) (v : Option Nat)
    (q : String) :
    (objSet o k v).lookup q = if q = k then some v else o.lookup q := by
  induction o with
  | nil =>
    by_cases hq : q = k
    · have hb : (q == k) = true := beq_iff_eq.mpr hq
      simp [objSet, List.lookup, hb, hq]
    · have hb : (q == k) = false := beq_eq_false_iff_ne.mpr hq
      simp [objSet, List.lookup, hb, hq]
  | cons p rest ih =>
    obtain ⟨p1, p2⟩ := p
    by_cases hp : p1 = k
    · by_cases hq : q = k
      · have hb : (q == k) = true := beq_iff_eq.mpr hq
        simp [objSet, hp, List.lookup, hb, hq]
      · have hb : (q == k) = false := beq_eq_false_iff_ne.mpr hq
        simp [objSet, hp, List.lookup, hb, hq]
    · by_cases hqp : q = p1
      · have hb : (q == p1) = true := beq_iff_eq.mpr hqp
        have hqk : ¬ q = k := by rw [hqp]; exact hp
        simp [objSet, hp, List.lookup, hb, hqk]
      · have hb : (q == p1) = false := beq_eq_false_iff_ne.mpr hqp
        simp [objSet, hp, List.lookup, hb, ih]

/-- Helper: reading any key off `objDelete o k` gives `undefined` at `k` and
the old entry elsewhere. -/
theorem objDelete_lookup (o : Callbacks) (k q : String) :
    (objDelete o k).lookup q = if q = k then none else o.lookup q := by
  induction o with
  | nil => by_cases hq : q = k <;> simp [objDelete, List.lookup, hq]
  | cons p rest ih =>
    obtain ⟨p1, p2⟩ := p
    by_cases hp : p1 = k
    · have hOD : objDelete ((p1, p2) :: rest) k = objDelete rest k := by
        simp [objDelete, hp]
      by_cases hq : q = k
      · rw [hOD, ih, if_pos hq, if_pos hq]
      · have hb : (q == p1) = false := by
          rw [hp]; exact beq_eq_false_iff_ne.mpr hq
        rw [hOD, ih, if_neg hq, if_neg hq]
        simp [List.lookup, hb]
    · by_cases hqp : q = p1
      · have hb : (q == p1) = true := beq_iff_eq.mpr hqp
        have hqk : ¬ q = k := by rw [hqp]; exact hp
        simp [objDelete, hp, List.lookup, hb, hqk]
      · have hb : (q == p1) = false := beq_eq_false_iff_ne.mpr hqp
        simp [objDelete, hp, List.lookup, hb, ih]

/-- Helper: `targetCallbacks` looks up like `this.callbacks` with the four
`InputCallbacks` keys removed. -/
theorem targetCallbacks_lookup (callbacks : Callbacks) (q : String) :
    (targetCallbacks callbacks).lookup q =
      if q ∈ InputCallbacks then none else callbacks.lookup q := by
  show (objDelete (objDelete (objDelete (objDelete callbacks "blur")
      "focus") "keyDown") "keyUp").lookup q = _
  simp only [objDelete_lookup]
  by_cases h1 : q = "blur" <;> by_cases h2 : q = "focus" <;>
    by_cases h3 : q = "keyDown" <;> by_cases h4 : q = "keyUp" <;>
    simp_all [InputCallbacks]

/-- Helper: `focusableCallbacks` looks up like `this.callbacks` restricted
to the four `InputCallbacks` keys. -/
theorem focusableCallbacks_lookup (callbacks : Callbacks) (q : String) :
    (focusableCallbacks callbacks).lookup q =
      if q ∈ InputCallbacks then some (objGet callbacks q) else none := by
  show (objSet (objSet (objSet (objSet ([] : Callbacks) "blur"
      (objGet callbacks "blur")) "focus" (objGet callbacks "focus"))
      "keyDown" (objGet callbacks "keyDown")) "keyUp"
      (objGet callbacks "keyUp")).lookup q = _
  simp only [objSet_lookup]
  by_cases h1 : q = "blur" <;> by_cases h2 : q = "focus" <;>
    by_cases h3 : q = "keyDown" <;> by_cases h4 : q = "keyUp" <;>
    simp_all [InputCallbacks, List.lookup]

/-- Helper: `focusableCallbacks` has exactly the `InputCallbacks` keys. -/
theorem hasKey_focusableCallbacks (callbacks : Callbacks) (k : String) :
    hasKey (focusableCallbacks callbacks) k = true ↔ k ∈ InputCallbacks := by
  unfold hasKey
  rw [focusableCallbacks_lookup]
  by_cases hm : k ∈ InputCallbacks <;> simp [hm]

/-- Helper: `targetCallbacks` has exactly the non-`InputCallbacks` keys of
`this.callbacks`. -/
theorem hasKey_targetCallbacks (callbacks : Callbacks) (k : String) :
    hasKey (targetCallbacks callbacks) k = true ↔
      (hasKey callbacks k = true ∧ k ∉ InputCallbacks) := by
  unfold hasKey
  rw [targetCallbacks_lookup]
  by_cases hm : k ∈ InputCallbacks <;> simp [hm]

/-- C10: on a decorated component instance — whose `this.callbacks` holds an
entry for each of the four `InputCallbacks` keys, since the decorator itself
registers `blur`, `focus`, `keyDown` and `keyUp` handlers —
`focusableCallbacks()` returns exactly the `blur`/`focus`/`keyDown`/`keyUp`
entries of `this.callbacks` and `targetCallbacks()` returns exactly the
remaining entries: the key sets are disjoint, and merging the two objects
reproduces `this.callbacks` key-for-key and value-for-value.  Both methods
build fresh objects (a copy via `Object.assign`, resp. a new literal), so
`this.callbacks` itself — in terms of which all right-hand sides are read —
is untouched. -/
theorem callbacks_partition_spec (callbacks : Callbacks)
    (h : ∀ k ∈ InputCallbacks, hasKey callbacks k = true) :
    (∀ k, hasKey (focusableCallbacks callbacks) k = true ↔
        (k ∈ InputCallbacks ∧ hasKey callbacks k = true))
    ∧ (∀ k ∈ InputCallbacks,
        objGet (focusableCallbacks callbacks) k = objGet callbacks k)
    ∧ (∀ k, hasKey (targetCallbacks callbacks) k = true ↔
        (hasKey callbacks k = true ∧ k ∉ InputCallbacks))
    ∧ (∀ k, k ∉ InputCallbacks →
        objGet (targetCallbacks callbacks) k = objGet callbacks k)
    ∧ (∀ k, ¬(hasKey (focusableCallbacks callbacks) k = true
        ∧ hasKey (targetCallbacks callbacks) k = true))
    ∧ (∀ k,
        hasKey (objAssign (targetCallbacks callbacks)
          (focusableCallbacks callbacks)) k = hasKey callbacks k
        ∧ objGet (objAssign (targetCallbacks callbacks)
            (focusableCallbacks callbacks)) k = objGet callbacks k) := by
  have hu : ∀ k, (objAssign (targetCallbacks callbacks)
      (focusableCallbacks callbacks)).lookup k =
      if k ∈ InputCallbacks then some (objGet callbacks k)
      else callbacks.lookup k := by
    intro k
    show (objSet (objSet (objSet (objSet (targetCallbacks callbacks) "blur"
        (objGet callbacks "blur")) "focus" (objGet callbacks "focus"))
        "keyDown" (objGet callbacks "keyDown")) "keyUp"
        (objGet callbacks "keyUp")).lookup k = _
    simp only [objSet_lookup, targetCallbacks_lookup]
    by_cases h1 : k = "blur" <;> by_cases h2 : k = "focus" <;>
      by_cases h3 : k = "keyDown" <;> by_cases h4 : k = "keyUp" <;>
      simp_all [InputCallbacks]
  refine ⟨?_, ?_, ?_, ?_, ?_, ?_⟩
  · intro k
    rw [hasKey_focusableCallbacks]
    exact ⟨fun hm => ⟨hm, h k hm⟩, fun hm => hm.1⟩
  · intro k hm
    simp [objGet, focusableCallbacks_lookup, hm]
  · intro k
    exact hasKey_targetCallbacks callbacks k
  · intro k hm
    simp [objGet, targetCallbacks_lookup, hm]
  · intro k hc
    have h1 := (hasKey_focusableCallbacks callbacks k).1 hc.1
    have h2 := (hasKey_targetCallbacks callbacks k).1 hc.2
    exact h2.2 h1
  · intro k
    constructor
    · unfold hasKey
      rw [hu k]
      by_cases hm : k ∈ InputCallbacks
      · rw [if_pos hm]
        exact (h k hm).symm
      · rw [if_neg hm]
    · unfold objGet
      rw [hu k]
      by_cases hm : k ∈ InputCallbacks
      · rw [if_pos hm]
        rfl
      · rw [if_neg hm]

/-- Witness for `callbacks_partition_spec` on a concrete callbacks object:
the callback partition and merge behave as stated. -/
theorem callbacks_partition_spec_witness :
    objGet (focusableCallbacks sampleCallbacks) "blur" = some 1
    ∧ objGet (targetCallbacks sampleCallbacks) "mouseDown" = some 5
    ∧ objGet (objAssign (targetCallbacks sampleCallbacks)
        (focusableCallbacks sampleCallbacks)) "keyUp" = some 4 := by
  have h := callbacks_partition_spec sampleCallbacks (by decide)
  refine ⟨h.2.1 "blur" (by decide), h.2.2.2.1 "mouseDown" (by decide), ?_⟩
  exact ((h.2.2.2.2.2 "keyUp").2).trans (by decide)

end BaseControl
